import Mathlib

/-!
Verification of the Linear / ColumnParallelLinear / MLP configuration layer
(`src/max/nn/linear.py`) against its specification.

The Python source is shallowly embedded: dataclasses become structures,
methods become Lean functions, and Python exceptions become `Except String`.
Tensor arithmetic in the MLP forward pass is modelled exactly over `ℚ`
(`Matrix` from Mathlib); the external elementwise activation kernels and the
fused `swish_glu` kernel are abstract function parameters.

Entity identity (Python object reference equality) for `Weight` is modelled
with an `id : ℕ` field: the external `Weight.shard` primitive (from
`max.graph`, not part of the embedded file) produces fresh entities with
identifiers distinct from the original, while reference sharing copies the
same record, `id` included.
-/

namespace MaxNN

/-- Device reference, mirroring `max.graph.DeviceRef` (`CPU()` / `GPU(id)`). -/
inductive DeviceRef where
  | CPU : DeviceRef
  | GPU : ℕ → DeviceRef
deriving DecidableEq, Repr, Inhabited

/-- Tensor element dtypes used by this file (`max.dtype.DType`). -/
inductive DType where
  | float32 : DType
  | bfloat16 : DType
  | float8_e4m3fn : DType
  | uint8 : DType
  | int32 : DType
deriving DecidableEq, Repr, Inhabited

/-- Quantization encodings referenced by the source (`max.graph.quantization`). -/
inductive QuantizationEncoding where
  | GPTQ : QuantizationEncoding
  | Q4_K : QuantizationEncoding
deriving DecidableEq, Repr, Inhabited

/-- Granularity of a float8 quantization scale factor (source lines 50-67). -/
inductive Float8ScaleGranularity where
  | tensor : Float8ScaleGranularity
  | rowwise : Float8ScaleGranularity
  | colwise : Float8ScaleGranularity
  | block : Float8ScaleGranularity
deriving DecidableEq, Repr, Inhabited

/-- Origin (static or dynamic) of the float8 scale (source lines 70-77). -/
inductive Float8ScaleOrigin where
  | static : Float8ScaleOrigin
  | dynamic : Float8ScaleOrigin
deriving DecidableEq, Repr, Inhabited

/-- How weights are scaled for float8 quantization (source lines 80-108). -/
structure Float8WeightScaleSpec where
  granularity : Float8ScaleGranularity
  dtype : DType
deriving DecidableEq, Repr

/-- Whether the weight scale granularity is per-tensor (source line 90). -/
def Float8WeightScaleSpec.is_tensor (s : Float8WeightScaleSpec) : Bool :=
  s.granularity = Float8ScaleGranularity.tensor

/-- Whether the weight scale granularity is row-wise (source line 95). -/
def Float8WeightScaleSpec.is_rowwise (s : Float8WeightScaleSpec) : Bool :=
  s.granularity = Float8ScaleGranularity.rowwise

/-- Whether the weight scale granularity is column-wise (source line 100). -/
def Float8WeightScaleSpec.is_colwise (s : Float8WeightScaleSpec) : Bool :=
  s.granularity = Float8ScaleGranularity.colwise

/-- Whether the weight scale granularity is block-wise (source line 105). -/
def Float8WeightScaleSpec.is_block (s : Float8WeightScaleSpec) : Bool :=
  s.granularity = Float8ScaleGranularity.block

/-- How input activations are scaled for float8 quantization
(source lines 111-125).  The activation upper bound is kept exact as `ℚ`. -/
structure Float8InputScaleSpec where
  granularity : Float8ScaleGranularity
  origin : Float8ScaleOrigin
  dtype : DType
  activation_scale_ub : Option ℚ := none
deriving DecidableEq, Repr

/-- Float8 quantization settings for a layer or model section
(source lines 128-158).  Layer-index sets become `List ℕ`. -/
structure Float8Config where
  input_scale : Float8InputScaleSpec
  weight_scale : Float8WeightScaleSpec
  mlp_in_float8 : List ℕ
  attn_qkv_in_float8 : List ℕ
  embedding_output_dtype : Option DType
  quant_method : Option String
deriving DecidableEq, Repr

/-- Whether this input scale is static (source lines 160-163). -/
def Float8Config.is_static (c : Float8Config) : Bool :=
  c.input_scale.origin = Float8ScaleOrigin.static

/-- Whether this input scale is dynamic (source lines 165-168). -/
def Float8Config.is_dynamic (c : Float8Config) : Bool :=
  c.input_scale.origin = Float8ScaleOrigin.dynamic

/-- Constructing a `Float8Config`.  In the source `Float8Config` is a plain
`@dataclass` (lines 128-158): its generated constructor stores the fields and
performs no validation whatsoever, so construction never raises.  The
`Except` result type records the absence of any error path. -/
def Float8Config.construct (input_scale : Float8InputScaleSpec)
    (weight_scale : Float8WeightScaleSpec)
    (mlp_in_float8 attn_qkv_in_float8 : List ℕ)
    (embedding_output_dtype : Option DType) (quant_method : Option String) :
    Except String Float8Config :=
  Except.ok
    { input_scale := input_scale
      weight_scale := weight_scale
      mlp_in_float8 := mlp_in_float8
      attn_qkv_in_float8 := attn_qkv_in_float8
      embedding_output_dtype := embedding_output_dtype
      quant_method := quant_method }

/-- Sharding strategy tags from `max.graph.ShardingStrategy`, as used by this
file: `replicate`, `rowwise`, `columnwise`, head-aware columnwise, and the
MLP-level `tensor_parallel`.  Each carries its device count. -/
inductive ShardingStrategy where
  | replicate : ℕ → ShardingStrategy
  | rowwise : ℕ → ShardingStrategy
  | colwise : ℕ → ShardingStrategy
  | headAwareColwise : ℕ → ShardingStrategy
  | tensorParallel : ℕ → ShardingStrategy
deriving DecidableEq, Repr, Inhabited

/-- Number of devices of a sharding strategy. -/
def ShardingStrategy.num_devices : ShardingStrategy → ℕ
  | .replicate n => n
  | .rowwise n => n
  | .colwise n => n
  | .headAwareColwise n => n
  | .tensorParallel n => n

/-- Whether the strategy is rowwise. -/
def ShardingStrategy.is_rowwise : ShardingStrategy → Bool
  | .rowwise _ => true
  | _ => false

/-- Whether the strategy is columnwise. -/
def ShardingStrategy.is_colwise : ShardingStrategy → Bool
  | .colwise _ => true
  | _ => false

/-- Whether the strategy is head-aware columnwise. -/
def ShardingStrategy.is_head_aware_colwise : ShardingStrategy → Bool
  | .headAwareColwise _ => true
  | _ => false

/-- Whether the strategy is replicate. -/
def ShardingStrategy.is_replicate : ShardingStrategy → Bool
  | .replicate _ => true
  | _ => false

/-- Whether the strategy is tensor-parallel. -/
def ShardingStrategy.is_tensor_parallel : ShardingStrategy → Bool
  | .tensorParallel _ => true
  | _ => false

/-- A named tensor entity (`max.graph.Weight`).  Modelled from the spec: the
`Weight` class itself lives outside the embedded file; per the spec a weight
has a name, dtype, shape, owning device, optional quantization encoding and an
assignable sharding strategy.  The `id` field models Python object identity:
two `Weight` values denote the same runtime object exactly when their `id`s
coincide. -/
structure Weight where
  name : String
  dtype : DType
  shape : List ℕ
  device : DeviceRef
  quantization_encoding : Option QuantizationEncoding
  sharding_strategy : Option ShardingStrategy
  id : ℕ
deriving DecidableEq, Repr, Inhabited

/-- Shape of one shard of a tensor of shape `shape` under `strategy`.
Modelled from the spec: rowwise partitions the leading dimension across
devices, colwise partitions the second dimension, replicate copies. -/
def shardShape (shape : List ℕ) (strategy : Option ShardingStrategy) : List ℕ :=
  match strategy, shape with
  | some (.rowwise n), d0 :: rest => (d0 / n) :: rest
  | some (.headAwareColwise n), d0 :: d1 :: rest => d0 :: (d1 / n) :: rest
  | some (.colwise n), d0 :: d1 :: rest => d0 :: (d1 / n) :: rest
  | _, s => s

/-- Sharding a weight across devices.  Modelled from the spec: the external
`Weight.shard(devices)` primitive produces one new `Weight` entity per device
("copy-on-shard semantics", no further relationship to the original), so
every produced entity carries a fresh `id` distinct from the original's. -/
def Weight.shard (w : Weight) (devices : List DeviceRef) : List Weight :=
  (List.range devices.length).map fun i =>
    { w with
      device := devices.getD i w.device
      shape := shardShape w.shape w.sharding_strategy
      sharding_strategy := none
      id := w.id + 1 + i }

/-- State of a `Linear` layer (source lines 171-215): main weight, optional
bias, optional float8 scales, target device, clip threshold and float8
config.  `in_dim`/`out_dim` record the constructor arguments. -/
structure LinearState where
  in_dim : ℕ
  out_dim : ℕ
  dtype : DType
  device : DeviceRef
  clip_weight : Option ℚ
  float8_config : Option Float8Config
  weight : Weight
  bias : Option Weight
  input_scale : Option Weight
  weight_scale : Option Weight
deriving DecidableEq, Repr

/-- Weight naming helper: Python `f"{name}.weight" if name else "weight"`. -/
def weightNameOf (name : Option String) (suffix : String) : String :=
  match name with
  | some n => n ++ "." ++ suffix
  | none => suffix

/-- Core of `Linear.__init__` (source lines 217-312).  The devices the
allocated weight and bias tensors end up assigned to are explicit parameters
`wDev`/`bDev` (modelled from the spec: tensor allocation is performed by the
external `Weight` allocator; the source then checks the resulting devices for
consistency at lines 268-271).  `baseId` seeds fresh entity identifiers. -/
def linearInitCore (in_dim out_dim : ℕ) (dtype : DType) (device : DeviceRef)
    (wDev bDev : DeviceRef) (has_bias : Bool)
    (quantization_encoding : Option QuantizationEncoding)
    (float8_config : Option Float8Config) (name : Option String)
    (clip_weight : Option ℚ) (baseId : ℕ) : Except String LinearState :=
  let weight : Weight :=
    { name := weightNameOf name "weight"
      dtype := dtype
      shape := [out_dim, in_dim]
      device := wDev
      quantization_encoding := quantization_encoding
      sharding_strategy := none
      id := baseId }
  let biasRes : Except String (Option Weight) :=
    if has_bias then
      let bias : Weight :=
        { name := weightNameOf name "bias"
          dtype := dtype
          shape := [out_dim]
          device := bDev
          quantization_encoding := quantization_encoding
          sharding_strategy := none
          id := baseId + 1 }
      if bias.device ≠ weight.device then
        Except.error "Bias is on a different device than the weight."
      else Except.ok (some bias)
    else Except.ok none
  match biasRes with
  | Except.error e => Except.error e
  | Except.ok bias =>
    match float8_config with
    | none =>
      Except.ok
        { in_dim := in_dim, out_dim := out_dim, dtype := dtype
          device := device, clip_weight := clip_weight
          float8_config := none, weight := weight, bias := bias
          input_scale := none, weight_scale := none }
    | some cfg =>
      let input_scale : Option Weight :=
        if cfg.is_static then
          some
            { name := weightNameOf name "input_scale"
              dtype := cfg.input_scale.dtype
              shape := []
              device := DeviceRef.CPU
              quantization_encoding := quantization_encoding
              sharding_strategy := none
              id := baseId + 2 }
        else none
      if cfg.input_scale.granularity ≠ Float8ScaleGranularity.tensor ∧
          cfg.input_scale.granularity ≠ Float8ScaleGranularity.colwise then
        Except.error
          "unsupported input scale granularity. Only tensor and col-wise are supported, currently"
      else
        match
          (if cfg.weight_scale.is_rowwise then some [out_dim, 1]
           else if cfg.weight_scale.is_tensor then some ([] : List ℕ)
           else none : Option (List ℕ)) with
        | none =>
          Except.error
            "only row-wise and tensor scaling are supported currently"
        | some wsShape =>
          Except.ok
            { in_dim := in_dim, out_dim := out_dim, dtype := dtype
              device := device, clip_weight := clip_weight
              float8_config := some cfg, weight := weight, bias := bias
              input_scale := input_scale
              weight_scale := some
                { name := weightNameOf name "weight_scale"
                  dtype := cfg.weight_scale.dtype
                  shape := wsShape
                  device := DeviceRef.CPU
                  quantization_encoding := quantization_encoding
                  sharding_strategy := none
                  id := baseId + 3 } }

/-- `Linear.__init__` as called in the source: the weight and bias are both
allocated on the constructor's `device` argument. -/
def linearInit (in_dim out_dim : ℕ) (dtype : DType) (device : DeviceRef)
    (has_bias : Bool) (quantization_encoding : Option QuantizationEncoding)
    (float8_config : Option Float8Config) (name : Option String)
    (clip_weight : Option ℚ) (baseId : ℕ) : Except String LinearState :=
  linearInitCore in_dim out_dim dtype device device device has_bias
    quantization_encoding float8_config name clip_weight baseId

/-- Setter of `Linear.sharding_strategy` (source lines 319-356): assigns the
strategy to the weight, then derives the weight scale's strategy (replicate
when the weight scale is per-tensor, or when the weight sharding is colwise /
head-aware colwise and the weight scale is rowwise) and the bias's strategy
(mirror when rowwise, else replicate).  The Python `assert self.float8_config`
becomes an error result. -/
def Linear.setShardingStrategy (l : LinearState) (strategy : ShardingStrategy) :
    Except String LinearState :=
  let l1 : LinearState :=
    { l with weight := { l.weight with sharding_strategy := some strategy } }
  let wsRes : Except String LinearState :=
    match l1.weight_scale with
    | none => Except.ok l1
    | some ws =>
      match l1.float8_config with
      | none => Except.error "assertion failed: self.float8_config"
      | some cfg =>
        let should_replicate : Bool :=
          cfg.weight_scale.is_tensor ||
            ((strategy.is_colwise || strategy.is_head_aware_colwise) &&
              cfg.weight_scale.is_rowwise)
        Except.ok
          { l1 with
            weight_scale := some
              { ws with
                sharding_strategy := some
                  (if should_replicate then
                    ShardingStrategy.replicate strategy.num_devices
                  else strategy) } }
  match wsRes with
  | Except.error e => Except.error e
  | Except.ok l2 =>
    match l2.bias with
    | none => Except.ok l2
    | some b =>
      Except.ok
        { l2 with
          bias := some
            { b with
              sharding_strategy := some
                (if strategy.is_rowwise then strategy
                 else ShardingStrategy.replicate strategy.num_devices) } }

/-- Structural recursion form of `List.mapM` over `Except`, mirroring the
Python construction loop in `Linear.shard`. -/
def mapMExcept {α β : Type} (f : α → Except String β) :
    List α → Except String (List β)
  | [] => Except.ok []
  | a :: as =>
    match f a with
    | Except.error e => Except.error e
    | Except.ok b =>
      match mapMExcept f as with
      | Except.error e => Except.error e
      | Except.ok bs => Except.ok (b :: bs)

/-- Sharded output dimension computed by `Linear.shard` (source lines
372-378): the leading weight dimension divided by the device count under a
rowwise strategy, unchanged otherwise. -/
def shardedOutDim (strategy : ShardingStrategy) (d0 : ℕ) : ℕ :=
  if strategy.is_rowwise then d0 / strategy.num_devices else d0

/-- Body of the per-device loop of `Linear.shard` (source lines 395-444):
construct a fresh `Linear` with the same configuration, overwrite its weight
with the device's shard, null the bias on colwise shards of index > 0, and
share or partition the float8 scales.  The Python
`assert len(self.input_scale.shape) == 0` becomes an error result. -/
def Linear.shardOne (l : LinearState) (strategy : ShardingStrategy)
    (out_dim : ℕ) (shardedBiases shardedWeightScales : List Weight)
    (devices : List DeviceRef) (shardedWeights : List Weight) (idx : ℕ) :
    Except String LinearState :=
  match linearInit (l.weight.shape.getD 1 0) out_dim l.weight.dtype
      (devices.getD idx DeviceRef.CPU) l.bias.isSome none l.float8_config
      none l.clip_weight 0 with
  | Except.error e => Except.error e
  | Except.ok base =>
    let s1 : LinearState := { base with weight := shardedWeights.getD idx l.weight }
    let s2 : LinearState :=
      if l.bias.isSome then
        if (strategy.is_colwise || strategy.is_head_aware_colwise) && decide (0 < idx) then
          { s1 with bias := none }
        else
          { s1 with bias := some (shardedBiases.getD idx default) }
      else s1
    match l.float8_config with
    | none => Except.ok s2
    | some _ =>
      let s3Res : Except String LinearState :=
        match l.input_scale with
        | none => Except.ok s2
        | some isc =>
          if isc.shape.length ≠ 0 then
            Except.error "assertion failed: input scale must be scalar"
          else Except.ok { s2 with input_scale := some isc }
      match s3Res with
      | Except.error e => Except.error e
      | Except.ok s3 =>
        match l.weight_scale with
        | none => Except.ok s3
        | some ws =>
          Except.ok
            { s3 with
              weight_scale := some
                (if ws.shape.length = 0 then ws
                 else shardedWeightScales.getD idx default) }

/-- `Linear.shard` (source lines 358-446): requires a strategy to be set,
computes the sharded `out_dim`, shards the weight, bias and non-scalar
weight scale, then builds one fresh `Linear` per device. -/
def Linear.shard (l : LinearState) (devices : List DeviceRef) :
    Except String (List LinearState) :=
  match l.weight.sharding_strategy with
  | none =>
    Except.error
      "Linear layer cannot be sharded because no sharding strategy was provided."
  | some strategy =>
    let out_dim := shardedOutDim strategy (l.weight.shape.getD 0 0)
    let shardedWeights := l.weight.shard devices
    let shardedBiases :=
      match l.bias with
      | some b => b.shard devices
      | none => []
    let shardedWeightScales :=
      match l.float8_config, l.weight_scale with
      | some _, some ws =>
        if 0 < ws.shape.length then ws.shard devices else []
      | _, _ => []
    mapMExcept
      (Linear.shardOne l strategy out_dim shardedBiases shardedWeightScales
        devices shardedWeights)
      (List.range devices.length)

/-- State of a `ColumnParallelLinear` layer (source lines 500-612): the base
`Linear` state after tying and strategy assignment, the device list, and the
synthesized per-device replicas. -/
structure ColumnParallelState where
  base : LinearState
  devices : List DeviceRef
  num_devices : ℕ
  distributed_linear_layers : List LinearState
deriving DecidableEq, Repr

/-- `ColumnParallelLinear.__init__` (source lines 551-612).  The `has_bias`
and `float8_config` keyword arguments are `Option`s whose `none` means the
keyword was not passed, mirroring `kwargs.get(...) is not None`: note that an
explicitly passed `has_bias=False` is `some false`, which is "present".  The
tied-weight guard tests presence, not truth. -/
def columnParallelInit (in_dim out_dim : ℕ) (dtype : DType)
    (devices : List DeviceRef) (tied_weight : Option Weight)
    (has_bias_arg : Option Bool) (float8_config_arg : Option Float8Config)
    (baseId : ℕ) : Except String ColumnParallelState :=
  if devices.length = 0 then
    Except.error "ColumnParallelLinear requires a non-empty devices argument"
  else if tied_weight.isSome &&
      (float8_config_arg.isSome || has_bias_arg.isSome) then
    Except.error
      "float8 and bias are both unsupported by ColumnParallelLinear currently"
  else
    match linearInit in_dim out_dim dtype (devices.getD 0 DeviceRef.CPU)
        (has_bias_arg.getD false) none float8_config_arg none none baseId with
    | Except.error e => Except.error e
    | Except.ok base0 =>
      let base1 : LinearState :=
        match tied_weight with
        | some w => { base0 with weight := w }
        | none => base0
      match Linear.setShardingStrategy base1
          (ShardingStrategy.rowwise devices.length) with
      | Except.error e => Except.error e
      | Except.ok base2 =>
        let weight_shards := base2.weight.shard devices
        let bias_shards : Option (List Weight) :=
          match base2.bias with
          | some b => some (b.shard devices)
          | none => none
        match
          mapMExcept
            (fun n =>
              match linearInit in_dim out_dim dtype
                  (devices.getD n DeviceRef.CPU) (has_bias_arg.getD false)
                  none float8_config_arg none none (baseId + 100 + 10 * n) with
              | Except.error e => Except.error e
              | Except.ok layer =>
                Except.ok
                  { layer with
                    device := devices.getD n DeviceRef.CPU
                    weight := weight_shards.getD n base2.weight
                    bias :=
                      match bias_shards with
                      | some bs => some (bs.getD n base2.weight)
                      | none => layer.bias })
            (List.range devices.length) with
        | Except.error e => Except.error e
        | Except.ok layers =>
          Except.ok
            { base := base2
              devices := devices
              num_devices := devices.length
              distributed_linear_layers := layers }

/-- Distributed GEMM execution configuration (source lines 1047-1052). -/
structure DistributedGemmConfig where
  enable_matmul_allreduce : Bool
deriving DecidableEq, Repr

/-- `DistributedGemmConfig.generate` (source lines 1054-1066), with the
process environment passed explicitly: `env` is the value of the
`LLAMA_ENABLE_DIST_GEMM_KERNELS` environment variable (`none` when unset).
When unset the default is `True`; otherwise Python `bool(opts_env)` is the
string's non-emptiness. -/
def DistributedGemmConfig.generate (env : Option String) :
    Option DistributedGemmConfig :=
  match env with
  | none => some { enable_matmul_allreduce := true }
  | some s => some { enable_matmul_allreduce := decide (s ≠ "") }

/-- Elementwise application of an activation kernel to a matrix.  All
activation functions in `_ACTIVATION_FUNCTIONS` (source lines 1037-1044) are
elementwise kernels; they are modelled by an abstract `ℚ → ℚ` function. -/
def matMap {n m : ℕ} (φ : ℚ → ℚ) (M : Matrix (Fin n) (Fin m) ℚ) :
    Matrix (Fin n) (Fin m) ℚ :=
  fun i j => φ (M i j)

/-- Elementwise (Hadamard) product of two matrices, modelling Python `*`. -/
def matHadamard {n m : ℕ} (A B : Matrix (Fin n) (Fin m) ℚ) :
    Matrix (Fin n) (Fin m) ℚ :=
  fun i j => A i j * B i j

/-- Broadcast addition of a bias vector over the rows of a matrix,
modelling `res += self.bias`. -/
def addBias {n : ℕ} {κ : Type} (M : Matrix (Fin n) κ ℚ) (b : κ → ℚ) :
    Matrix (Fin n) κ ℚ :=
  fun i j => M i j + b j

/-- `ops.concat` of two weight matrices along axis 0 (rows), as in the fused
MLP matmul (source line 1195).  The concatenated row index space is the sum
type `Fin f ⊕ Fin f`: left summand gate rows, right summand up rows. -/
def concatRows {f h : ℕ} (A B : Matrix (Fin f) (Fin h) ℚ) :
    Matrix (Fin f ⊕ Fin f) (Fin h) ℚ :=
  fun i j => Sum.elim (fun a => A a j) (fun a => B a j) i

/-- Concatenation of two bias vectors (source line 1191). -/
def concatBias {f : ℕ} (a b : Fin f → ℚ) : Fin f ⊕ Fin f → ℚ :=
  Sum.elim a b

/-- First half of `ops.split(output, [f, f], axis=1)` (source line 1200). -/
def splitGateHalf {n f : ℕ} (M : Matrix (Fin n) (Fin f ⊕ Fin f) ℚ) :
    Matrix (Fin n) (Fin f) ℚ :=
  fun i j => M i (Sum.inl j)

/-- Second half of `ops.split(output, [f, f], axis=1)` (source line 1200). -/
def splitUpHalf {n f : ℕ} (M : Matrix (Fin n) (Fin f ⊕ Fin f) ℚ) :
    Matrix (Fin n) (Fin f) ℚ :=
  fun i j => M i (Sum.inr j)

/-- Plain-precision `Linear.__call__` (source lines 463-497 with no
quantization encoding, no float8 config and no clip threshold, as holds for
the projections an `MLP` constructs): `x @ W.T`, plus the bias when present.
Device moves (`.to(device)`) are value-preserving and drop out of the value
model. -/
def linearCallPlain {o i n : ℕ} (W : Matrix (Fin o) (Fin i) ℚ)
    (b : Option (Fin o → ℚ)) (x : Matrix (Fin n) (Fin i) ℚ) :
    Matrix (Fin n) (Fin o) ℚ :=
  match b with
  | some bb => addBias (x * W.transpose) bb
  | none => x * W.transpose

/-- Guard of the `swish_glu` fused path, translated verbatim from
`MLP.__call__` (source lines 1153-1159) and `MLPV1.__call__` (source lines
1022-1028): both biases absent, input of rank 2, input device known and not
CPU, conjoined with the literal `False` of the `GEX-1476` workaround. -/
def swishGluCond (gateBiasNone upBiasNone : Bool) (xRank : ℕ)
    (xDevice : Option DeviceRef) : Bool :=
  gateBiasNone && upBiasNone && decide (xRank = 2) && xDevice.isSome &&
    decide (xDevice ≠ some DeviceRef.CPU) && false

/-- Result of `MLP.__call__`: either the full output (down projection
applied) or, when the distributed-GEMM overlap skips the last projection,
the pre-projection hidden tensor (source lines 1205-1212). -/
inductive MLPOut (n h f : ℕ) where
  | full : Matrix (Fin n) (Fin h) ℚ → MLPOut n h f
  | hidden : Matrix (Fin n) (Fin f) ℚ → MLPOut n h f
deriving DecidableEq

/-- A plain-precision `MLP` as produced by `MLP.__init__` (source lines
1075-1150) with `quantization_encoding = None` and `float8_config = None`:
gate/up projections of shape `[f, h]`, down projection `[h, f]`, optional
biases, the selected elementwise activation kernel, and the optional
distributed-GEMM configuration.  Projections built by the constructor carry
no clip threshold. -/
structure MLPPlain (h f : ℕ) where
  gateW : Matrix (Fin f) (Fin h) ℚ
  upW : Matrix (Fin f) (Fin h) ℚ
  downW : Matrix (Fin h) (Fin f) ℚ
  gateBias : Option (Fin f → ℚ)
  upBias : Option (Fin f → ℚ)
  downBias : Option (Fin h → ℚ)
  act : ℚ → ℚ
  distGemm : Option DistributedGemmConfig

/-- Whether the final down projection is skipped in favour of the fused
matmul + all-reduce kernel (source lines 1206-1212): skip exactly when a
`DistributedGemmConfig` is supplied and `enable_matmul_allreduce` is set. -/
def distGemmSkip : Option DistributedGemmConfig → Bool
  | none => false
  | some c => c.enable_matmul_allreduce

/-- Plain-precision else-branch of `MLP.__call__` (source lines 1169-1212):
one matmul against the concatenated gate/up weights (with concatenated
biases when both are present), split back into gate and up halves, activation
on the gate half times the up half, then the down projection unless the
distributed-GEMM overlap skips it. -/
def mlpPlainBranch {h f n : ℕ} (m : MLPPlain h f)
    (x : Matrix (Fin n) (Fin h) ℚ) : MLPOut n h f :=
  let concatW := concatRows m.gateW m.upW
  let output :=
    match m.gateBias, m.upBias with
    | some gb, some ub => addBias (x * concatW.transpose) (concatBias gb ub)
    | _, _ => x * concatW.transpose
  let gate_out := splitGateHalf output
  let up_out := splitUpHalf output
  let hidden := matHadamard (matMap m.act gate_out) up_out
  if distGemmSkip m.distGemm then MLPOut.hidden hidden
  else MLPOut.full (linearCallPlain m.downW m.downBias hidden)

/-- `MLP.__call__` on a plain-precision MLP (source lines 1152-1212).  The
external fused `swish_glu` kernel is the abstract parameter `fk`; the input's
rank and device (read off `TensorValue(x)` by the guard) are passed
alongside its rank-2 value. -/
def mlpCall {h f n : ℕ}
    (fk : Matrix (Fin n) (Fin h) ℚ → Matrix (Fin f) (Fin h) ℚ →
      Matrix (Fin f) (Fin h) ℚ → Matrix (Fin n) (Fin f) ℚ)
    (m : MLPPlain h f) (xRank : ℕ) (xDevice : Option DeviceRef)
    (x : Matrix (Fin n) (Fin h) ℚ) : MLPOut n h f :=
  if swishGluCond m.gateBias.isNone m.upBias.isNone xRank xDevice then
    MLPOut.full (linearCallPlain m.downW m.downBias (fk x m.gateW m.upW))
  else mlpPlainBranch m x

/-- The deprecated `LinearV1` (source lines 646-670): a weight matrix and an
optional bias; its call is `x @ W.T` plus bias, device moves value-neutral. -/
structure LinV1 (o i : ℕ) where
  weight : Matrix (Fin o) (Fin i) ℚ
  bias : Option (Fin o → ℚ)

/-- `LinearV1.__call__` (source lines 660-670). -/
def linV1Call {o i n : ℕ} (l : LinV1 o i) (x : Matrix (Fin n) (Fin i) ℚ) :
    Matrix (Fin n) (Fin o) ℚ :=
  match l.bias with
  | some bb => addBias (x * l.weight.transpose) bb
  | none => x * l.weight.transpose

/-- The deprecated `MLPV1` (source lines 1002-1019): three `LinearV1`
projections, SiLU activation. -/
structure MLPV1 (h f : ℕ) where
  gate_proj : LinV1 f h
  down_proj : LinV1 h f
  up_proj : LinV1 f h

/-- Generic (non-fused) branch of `MLPV1.__call__` (source line 1034):
`down(silu(gate(x)) * up(x))`, with the external SiLU kernel abstract. -/
def mlpV1Generic {h f n : ℕ} (silu : ℚ → ℚ) (m : MLPV1 h f)
    (x : Matrix (Fin n) (Fin h) ℚ) : Matrix (Fin n) (Fin h) ℚ :=
  linV1Call m.down_proj
    (matHadamard (matMap silu (linV1Call m.gate_proj x)) (linV1Call m.up_proj x))

/-- `MLPV1.__call__` (source lines 1021-1034), with the external `swish_glu`
and SiLU kernels abstract. -/
def mlpV1Call {h f n : ℕ}
    (fk : Matrix (Fin n) (Fin h) ℚ → Matrix (Fin f) (Fin h) ℚ →
      Matrix (Fin f) (Fin h) ℚ → Matrix (Fin n) (Fin f) ℚ)
    (silu : ℚ → ℚ) (m : MLPV1 h f) (xRank : ℕ) (xDevice : Option DeviceRef)
    (x : Matrix (Fin n) (Fin h) ℚ) : Matrix (Fin n) (Fin h) ℚ :=
  if swishGluCond m.gate_proj.bias.isNone m.up_proj.bias.isNone xRank xDevice then
    linV1Call m.down_proj (fk x m.gate_proj.weight m.up_proj.weight)
  else mlpV1Generic silu m x

/-- Granularity combinations accepted by `Linear.__init__` (source lines
283-302): input scale per-tensor or colwise, weight scale rowwise or
per-tensor. -/
def Float8Config.validGranularity (c : Float8Config) : Prop :=
  (c.input_scale.granularity = Float8ScaleGranularity.tensor ∨
    c.input_scale.granularity = Float8ScaleGranularity.colwise) ∧
  (c.weight_scale.granularity = Float8ScaleGranularity.rowwise ∨
    c.weight_scale.granularity = Float8ScaleGranularity.tensor)

/-- Example concrete device list used by witnesses. -/
def exDevices : List DeviceRef := [DeviceRef.GPU 0, DeviceRef.GPU 1]

/-- Example tied weight used by witnesses. -/
def exTiedWeight : Weight :=
  { name := "weight", dtype := DType.float32, shape := [4, 6]
    device := DeviceRef.GPU 0, quantization_encoding := none
    sharding_strategy := none, id := 0 }

/-- Example input-scale spec with the unsupported BLOCK granularity. -/
def exBlockInputSpec : Float8InputScaleSpec :=
  { granularity := Float8ScaleGranularity.block
    origin := Float8ScaleOrigin.dynamic
    dtype := DType.float32
    activation_scale_ub := none }

/-- Example rowwise weight-scale spec. -/
def exRowwiseWeightSpec : Float8WeightScaleSpec :=
  { granularity := Float8ScaleGranularity.rowwise, dtype := DType.float32 }

/-- Example float8 config with BLOCK input-scale granularity. -/
def exBlockConfig : Float8Config :=
  { input_scale := exBlockInputSpec
    weight_scale := exRowwiseWeightSpec
    mlp_in_float8 := []
    attn_qkv_in_float8 := []
    embedding_output_dtype := none
    quant_method := none }

/-- Example valid (static tensor-input, rowwise weight-scale) float8 config. -/
def exValidConfig : Float8Config :=
  { input_scale :=
      { granularity := Float8ScaleGranularity.tensor
        origin := Float8ScaleOrigin.static
        dtype := DType.float32
        activation_scale_ub := none }
    weight_scale := exRowwiseWeightSpec
    mlp_in_float8 := []
    attn_qkv_in_float8 := []
    embedding_output_dtype := none
    quant_method := none }

/-- Example weight with a colwise sharding strategy over 2 devices. -/
def exWeightColwise : Weight :=
  { name := "weight", dtype := DType.float32, shape := [4, 6]
    device := DeviceRef.CPU, quantization_encoding := none
    sharding_strategy := some (ShardingStrategy.colwise 2), id := 0 }

/-- Example weight with a rowwise sharding strategy over 2 devices. -/
def exWeightRowwise : Weight :=
  { name := "weight", dtype := DType.float32, shape := [4, 6]
    device := DeviceRef.CPU, quantization_encoding := none
    sharding_strategy := some (ShardingStrategy.rowwise 2), id := 0 }

/-- Example bias weight. -/
def exBias : Weight :=
  { name := "bias", dtype := DType.float32, shape := [4]
    device := DeviceRef.CPU, quantization_encoding := none
    sharding_strategy := some (ShardingStrategy.replicate 2), id := 1 }

/-- Example scalar input-scale weight. -/
def exInputScale : Weight :=
  { name := "input_scale", dtype := DType.float32, shape := []
    device := DeviceRef.CPU, quantization_encoding := none
    sharding_strategy := none, id := 2 }

/-- Example non-scalar (rowwise) weight-scale weight. -/
def exWeightScaleRowwise : Weight :=
  { name := "weight_scale", dtype := DType.float32, shape := [4, 1]
    device := DeviceRef.CPU, quantization_encoding := none
    sharding_strategy := some (ShardingStrategy.replicate 2), id := 3 }

/-- Example Linear with colwise sharding and a bias. -/
def exLinearC3 : LinearState :=
  { in_dim := 6, out_dim := 4, dtype := DType.float32
    device := DeviceRef.CPU, clip_weight := none, float8_config := none
    weight := exWeightColwise, bias := some exBias
    input_scale := none, weight_scale := none }

/-- Example Linear with rowwise sharding and no bias. -/
def exLinearC4 : LinearState :=
  { in_dim := 6, out_dim := 4, dtype := DType.float32
    device := DeviceRef.CPU, clip_weight := none, float8_config := none
    weight := exWeightRowwise, bias := none
    input_scale := none, weight_scale := none }

/-- Example float8 Linear with a scalar input scale and a rowwise (non-scalar)
weight scale, sharded rowwise over 2 devices. -/
def exLinearC5 : LinearState :=
  { in_dim := 6, out_dim := 4, dtype := DType.float32
    device := DeviceRef.CPU, clip_weight := none
    float8_config := some exValidConfig
    weight := exWeightRowwise, bias := none
    input_scale := some exInputScale
    weight_scale := some exWeightScaleRowwise }

/-- Example plain-precision MLP with scalar dimensions for the C1 witness. -/
def exMLP : MLPPlain 1 1 :=
  { gateW := fun _ _ => 2, upW := fun _ _ => 3, downW := fun _ _ => 5
    gateBias := none, upBias := none, downBias := none
    act := fun q => q + 1, distGemm := none }

/-- Example rank-2 input value for the C1 witness. -/
def exX : Matrix (Fin 1) (Fin 1) ℚ := fun _ _ => 7

/-- Example (arbitrary) stand-in for the external fused swish-glu kernel. -/
def exFk : Matrix (Fin 1) (Fin 1) ℚ → Matrix (Fin 1) (Fin 1) ℚ →
    Matrix (Fin 1) (Fin 1) ℚ → Matrix (Fin 1) (Fin 1) ℚ :=
  fun x _ _ => x

/-! ### Helper lemmas -/

theorem linearInit_noFloat8_ok (i o : ℕ) (dt : DType) (dev : DeviceRef)
    (hb : Bool) (qe : Option QuantizationEncoding) (nm : Option String)
    (clip : Option ℚ) (baseId : ℕ) :
    linearInit i o dt dev hb qe none nm clip baseId =
      Except.ok
        { in_dim := i, out_dim := o, dtype := dt, device := dev
          clip_weight := clip, float8_config := none
          weight := ⟨weightNameOf nm "weight", dt, [o, i], dev, qe, none, baseId⟩
          bias :=
            if hb then
              some ⟨weightNameOf nm "bias", dt, [o], dev, qe, none, baseId + 1⟩
            else none
          input_scale := none, weight_scale := none } := by
  cases hb <;> simp [linearInit, linearInitCore]

theorem linearInit_float8_ok {i o : ℕ} {dt : DType} {dev : DeviceRef}
    {hb : Bool} {qe : Option QuantizationEncoding} {nm : Option String}
    {clip : Option ℚ} {baseId : ℕ} {cfg : Float8Config}
    (hv : cfg.validGranularity) :
    linearInit i o dt dev hb qe (some cfg) nm clip baseId =
      Except.ok
        { in_dim := i, out_dim := o, dtype := dt, device := dev
          clip_weight := clip, float8_config := some cfg
          weight := ⟨weightNameOf nm "weight", dt, [o, i], dev, qe, none, baseId⟩
          bias :=
            if hb then
              some ⟨weightNameOf nm "bias", dt, [o], dev, qe, none, baseId + 1⟩
            else none
          input_scale :=
            if cfg.is_static then
              some ⟨weightNameOf nm "input_scale", cfg.input_scale.dtype, [],
                DeviceRef.CPU, qe, none, baseId + 2⟩
            else none
          weight_scale :=
            some ⟨weightNameOf nm "weight_scale", cfg.weight_scale.dtype,
              (if cfg.weight_scale.is_rowwise then [o, 1] else []),
              DeviceRef.CPU, qe, none, baseId + 3⟩ } := by
  obtain ⟨hin, hws⟩ := hv
  have h1 : ¬(cfg.input_scale.granularity ≠ Float8ScaleGranularity.tensor ∧
      cfg.input_scale.granularity ≠ Float8ScaleGranularity.colwise) := by
    tauto
  cases hb <;> rcases hws with h | h <;>
    simp [linearInit, linearInitCore, h1, h, Float8WeightScaleSpec.is_rowwise,
      Float8WeightScaleSpec.is_tensor]

theorem mapMExcept_ok_of_forall {α β : Type} {f : α → Except String β}
    {P : α → β → Prop} (xs : List α)
    (h : ∀ a ∈ xs, ∃ b, f a = Except.ok b ∧ P a b) :
    ∃ ys, mapMExcept f xs = Except.ok ys ∧ ys.length = xs.length ∧
      ∀ (i : ℕ) (hy : i < ys.length) (hx : i < xs.length),
        P (xs.get ⟨i, hx⟩) (ys.get ⟨i, hy⟩) := by
  induction xs with
  | nil =>
    exact ⟨[], rfl, rfl, fun i hy _ => absurd hy (Nat.not_lt_zero i)⟩
  | cons a as ih =>
    obtain ⟨b, hb, hPb⟩ := h a (List.mem_cons_self a as)
    obtain ⟨ys, hys, hlen, hP⟩ := ih (fun a' ha' => h a' (List.mem_cons_of_mem a ha'))
    refine ⟨b :: ys, ?_, by simp [hlen], ?_⟩
    · simp [mapMExcept, hb, hys]
    · intro i hy hx
      cases i with
      | zero => exact hPb
      | succ k => exact hP k (by simpa using hy) (by simpa using hx)

theorem list_map_sum_const {β : Type} (g : β → ℕ) (v : ℕ) (ys : List β)
    (h : ∀ (i : ℕ) (hy : i < ys.length), g (ys.get ⟨i, hy⟩) = v) :
    (ys.map g).sum = ys.length * v := by
  induction ys with
  | nil => simp
  | cons y ys ih =>
    have h0 := h 0 (by simp)
    have hrest := ih (fun i hy => h (i + 1) (by simpa using hy))
    simp only [List.map_cons, List.sum_cons, List.length_cons, hrest]
    simp only [List.get] at h0
    rw [h0, Nat.succ_mul]
    ring

theorem shouldReplicate_cond_iff (cfg : Float8Config) (s : ShardingStrategy) :
    ((cfg.weight_scale.is_tensor ||
        ((s.is_colwise || s.is_head_aware_colwise) &&
          cfg.weight_scale.is_rowwise)) = true) ↔
      (cfg.weight_scale.granularity = Float8ScaleGranularity.tensor ∨
        ((s.is_colwise = true ∨ s.is_head_aware_colwise = true) ∧
          cfg.weight_scale.granularity = Float8ScaleGranularity.rowwise)) := by
  simp [Float8WeightScaleSpec.is_tensor, Float8WeightScaleSpec.is_rowwise]

/-- Value produced by `Linear.shardOne` for each device index: the fields of
the fresh per-device `Linear` after the weight/bias/scale overwrites. -/
theorem shardOne_eq (l : LinearState) (strategy : ShardingStrategy)
    (out_dim : ℕ) (sb sws : List Weight) (devices : List DeviceRef)
    (sw : List Weight) (idx : ℕ)
    (hvalid : ∀ cfg, l.float8_config = some cfg → cfg.validGranularity)
    (hisc : ∀ isc, l.input_scale = some isc → isc.shape = []) :
    Linear.shardOne l strategy out_dim sb sws devices sw idx =
      Except.ok
        { in_dim := l.weight.shape.getD 1 0
          out_dim := out_dim
          dtype := l.weight.dtype
          device := devices.getD idx DeviceRef.CPU
          clip_weight := l.clip_weight
          float8_config := l.float8_config
          weight := sw.getD idx l.weight
          bias :=
            if l.bias.isSome then
              (if (strategy.is_colwise || strategy.is_head_aware_colwise) &&
                  decide (0 < idx)
                then none
                else some (sb.getD idx default))
            else none
          input_scale :=
            match l.float8_config, l.input_scale with
            | none, _ => none
            | some _, some isc => some isc
            | some cfg, none =>
              if cfg.is_static then
                some ⟨"input_scale", cfg.input_scale.dtype, [],
                  DeviceRef.CPU, none, none, 2⟩
              else none
          weight_scale :=
            match l.float8_config, l.weight_scale with
            | none, _ => none
            | some _, some ws =>
              some (if ws.shape.length = 0 then ws else sws.getD idx default)
            | some cfg, none =>
              some ⟨"weight_scale", cfg.weight_scale.dtype,
                (if cfg.weight_scale.is_rowwise then [out_dim, 1] else []),
                DeviceRef.CPU, none, none, 3⟩ } := by
  cases hcfg : l.float8_config with
  | none =>
    cases hbias : l.bias with
    | none =>
      simp [Linear.shardOne, hcfg, hbias, linearInit_noFloat8_ok]
    | some b =>
      by_cases hcw :
          ((strategy.is_colwise || strategy.is_head_aware_colwise) &&
            decide (0 < idx)) = true <;>
        simp [Linear.shardOne, hcfg, hbias, linearInit_noFloat8_ok, hcw]
  | some cfg =>
    have hv := hvalid cfg hcfg
    cases hin : l.input_scale with
    | none =>
      cases hws : l.weight_scale with
      | none =>
        cases hbias : l.bias with
        | none =>
          simp [Linear.shardOne, hcfg, hbias, hin, hws,
            linearInit_float8_ok hv, weightNameOf]
        | some b =>
          by_cases hcw :
              ((strategy.is_colwise || strategy.is_head_aware_colwise) &&
                decide (0 < idx)) = true <;>
            simp [Linear.shardOne, hcfg, hbias, hin, hws,
              linearInit_float8_ok hv, weightNameOf, hcw]
      | some ws =>
        cases hbias : l.bias with
        | none =>
          simp [Linear.shardOne, hcfg, hbias, hin, hws,
            linearInit_float8_ok hv, weightNameOf]
        | some b =>
          by_cases hcw :
              ((strategy.is_colwise || strategy.is_head_aware_colwise) &&
                decide (0 < idx)) = true <;>
            simp [Linear.shardOne, hcfg, hbias, hin, hws,
              linearInit_float8_ok hv, weightNameOf, hcw]
    | some isc =>
      have hscalar := hisc isc hin
      cases hws : l.weight_scale with
      | none =>
        cases hbias : l.bias with
        | none =>
          simp [Linear.shardOne, hcfg, hbias, hin, hws,
            linearInit_float8_ok hv, weightNameOf, hscalar]
        | some b =>
          by_cases hcw :
              ((strategy.is_colwise || strategy.is_head_aware_colwise) &&
                decide (0 < idx)) = true <;>
            simp [Linear.shardOne, hcfg, hbias, hin, hws,
              linearInit_float8_ok hv, weightNameOf, hscalar, hcw]
      | some ws =>
        cases hbias : l.bias with
        | none =>
          simp [Linear.shardOne, hcfg, hbias, hin, hws,
            linearInit_float8_ok hv, weightNameOf, hscalar]
        | some b =>
          by_cases hcw :
              ((strategy.is_colwise || strategy.is_head_aware_colwise) &&
                decide (0 < idx)) = true <;>
            simp [Linear.shardOne, hcfg, hbias, hin, hws,
              linearInit_float8_ok hv, weightNameOf, hscalar, hcw]

theorem linear_shard_eq_mapM (l : LinearState) (s : ShardingStrategy)
    (devices : List DeviceRef) (hs : l.weight.sharding_strategy = some s) :
    Linear.shard l devices =
      mapMExcept
        (Linear.shardOne l s (shardedOutDim s (l.weight.shape.getD 0 0))
          (match l.bias with
            | some bb => bb.shard devices
            | none => [])
          (match l.float8_config, l.weight_scale with
            | some _, some ws =>
              if 0 < ws.shape.length then ws.shard devices else []
            | _, _ => [])
          devices (l.weight.shard devices))
        (List.range devices.length) := by
  simp only [Linear.shard, hs]

theorem weight_shard_getD (w : Weight) (devices : List DeviceRef) (i : ℕ)
    (hi : i < devices.length) :
    (w.shard devices).getD i default =
      { w with
        device := devices.getD i w.device
        shape := shardShape w.shape w.sharding_strategy
        sharding_strategy := none
        id := w.id + 1 + i } := by
  unfold Weight.shard
  rw [List.getD_eq_getElem]
  · simp
  · simpa using hi

/-! ### Claim theorems -/

/-- C3: for a Linear with a bias under a colwise (or head-aware colwise)
sharding strategy, the list returned by `shard(devices)` has a non-null bias
on the shard at index 0 and a null bias on every shard of index greater
than 0. -/
theorem c3_colwise_bias_only_on_shard_zero (l : LinearState)
    (s : ShardingStrategy) (devices : List DeviceRef) (b : Weight)
    (hs : l.weight.sharding_strategy = some s)
    (hcw : s.is_colwise = true ∨ s.is_head_aware_colwise = true)
    (hb : l.bias = some b)
    (hvalid : ∀ cfg, l.float8_config = some cfg → cfg.validGranularity)
    (hisc : ∀ isc, l.input_scale = some isc → isc.shape = []) :
    ∃ shards, Linear.shard l devices = Except.ok shards ∧
      shards.length = devices.length ∧
      ∀ (i : ℕ) (hi : i < shards.length),
        ((shards.get ⟨i, hi⟩).bias.isSome = true ↔ i = 0) := by
  have hcwb : (s.is_colwise || s.is_head_aware_colwise) = true := by
    rcases hcw with h | h <;> simp [h]
  have hred := linear_shard_eq_mapM l s devices hs
  have hpoint : ∀ idx ∈ List.range devices.length,
      ∃ sh,
        Linear.shardOne l s (shardedOutDim s (l.weight.shape.getD 0 0))
          (match l.bias with
            | some bb => bb.shard devices
            | none => [])
          (match l.float8_config, l.weight_scale with
            | some _, some ws =>
              if 0 < ws.shape.length then ws.shard devices else []
            | _, _ => [])
          devices (l.weight.shard devices) idx = Except.ok sh ∧
        (sh.bias.isSome = true ↔ idx = 0) := by
    intro idx _
    refine ⟨_, shardOne_eq l s _ _ _ devices _ idx hvalid hisc, ?_⟩
    cases idx with
    | zero => simp [hb, hcwb]
    | succ k => simp [hb, hcwb]
  obtain ⟨ys, hys, hlen, hP⟩ := mapMExcept_ok_of_forall _ hpoint
  refine ⟨ys, hred.trans hys, hlen.trans (List.length_range _), ?_⟩
  intro i hi
  have hx : i < (List.range devices.length).length := hlen ▸ hi
  have hgr : (List.range devices.length).get ⟨i, hx⟩ = i := by
    simp [List.get_eq_getElem, List.getElem_range]
  have := hP i hi hx
  rwa [hgr] at this

/-- C3 witness: a colwise-sharded Linear with a bias, sharded over two
devices. -/
theorem c3_witness :
    ∃ shards, Linear.shard exLinearC3 exDevices = Except.ok shards ∧
      shards.length = exDevices.length ∧
      ∀ (i : ℕ) (hi : i < shards.length),
        ((shards.get ⟨i, hi⟩).bias.isSome = true ↔ i = 0) :=
  c3_colwise_bias_only_on_shard_zero exLinearC3 (ShardingStrategy.colwise 2)
    exDevices exBias rfl (Or.inl rfl) rfl
    (by intro cfg hc; cases hc) (by intro isc hc; cases hc)

/-- C4: `shard(devices)` computes each shard's `out_dim` as the original
`out_dim` divided by the device count exactly under a rowwise strategy
(so that, with matching device count and divisible `out_dim`, the shard
`out_dim`s sum to the original), and leaves it unchanged under any
non-rowwise (colwise / replicate / ...) strategy. -/
theorem c4_shard_out_dims (l : LinearState) (s : ShardingStrategy)
    (devices : List DeviceRef)
    (hs : l.weight.sharding_strategy = some s)
    (hshape : l.weight.shape.getD 0 0 = l.out_dim)
    (hn : s.num_devices = devices.length)
    (hvalid : ∀ cfg, l.float8_config = some cfg → cfg.validGranularity)
    (hisc : ∀ isc, l.input_scale = some isc → isc.shape = [])
    (hdvd : s.is_rowwise = true → s.num_devices ∣ l.out_dim) :
    ∃ shards, Linear.shard l devices = Except.ok shards ∧
      shards.length = devices.length ∧
      (∀ (i : ℕ) (hi : i < shards.length),
        (shards.get ⟨i, hi⟩).out_dim =
          if s.is_rowwise then l.out_dim / s.num_devices else l.out_dim) ∧
      (s.is_rowwise = true →
        (shards.map LinearState.out_dim).sum = l.out_dim) ∧
      (s.is_rowwise = false →
        ∀ (i : ℕ) (hi : i < shards.length),
          (shards.get ⟨i, hi⟩).out_dim = l.out_dim) := by
  have hred := linear_shard_eq_mapM l s devices hs
  have hpoint : ∀ idx ∈ List.range devices.length,
      ∃ sh,
        Linear.shardOne l s (shardedOutDim s (l.weight.shape.getD 0 0))
          (match l.bias with
            | some bb => bb.shard devices
            | none => [])
          (match l.float8_config, l.weight_scale with
            | some _, some ws =>
              if 0 < ws.shape.length then ws.shard devices else []
            | _, _ => [])
          devices (l.weight.shard devices) idx = Except.ok sh ∧
        sh.out_dim = shardedOutDim s (l.weight.shape.getD 0 0) := by
    intro idx _
    exact ⟨_, shardOne_eq l s _ _ _ devices _ idx hvalid hisc, rfl⟩
  obtain ⟨ys, hys, hlen, hP⟩ := mapMExcept_ok_of_forall _ hpoint
  have hconst : ∀ (i : ℕ) (hi : i < ys.length),
      (ys.get ⟨i, hi⟩).out_dim = shardedOutDim s (l.weight.shape.getD 0 0) :=
    fun i hi => hP i hi (hlen ▸ hi)
  have hsh : shardedOutDim s (l.weight.shape.getD 0 0) =
      if s.is_rowwise then l.out_dim / s.num_devices else l.out_dim := by
    unfold shardedOutDim
    rw [hshape]
  refine ⟨ys, hred.trans hys, hlen.trans (List.length_range _), ?_, ?_, ?_⟩
  · intro i hi
    rw [hconst i hi, hsh]
  · intro hrow
    have hv : ∀ (i : ℕ) (hi : i < ys.length),
        LinearState.out_dim (ys.get ⟨i, hi⟩) = l.out_dim / s.num_devices := by
      intro i hi
      rw [hconst i hi, hsh, hrow]
      simp
    rw [list_map_sum_const _ _ ys hv, hlen.trans (List.length_range _), ← hn]
    exact Nat.mul_div_cancel' (hdvd hrow)
  · intro hnrow i hi
    rw [hconst i hi, hsh, hnrow]
    simp

/-- C4 witness: a rowwise-sharded Linear with `out_dim = 4` over two devices:
each shard gets `out_dim = 2` and the shard `out_dim`s sum to 4. -/
theorem c4_witness :
    ∃ shards, Linear.shard exLinearC4 exDevices = Except.ok shards ∧
      shards.length = exDevices.length ∧
      (∀ (i : ℕ) (hi : i < shards.length),
        (shards.get ⟨i, hi⟩).out_dim =
          if (ShardingStrategy.rowwise 2).is_rowwise then
            exLinearC4.out_dim / (ShardingStrategy.rowwise 2).num_devices
          else exLinearC4.out_dim) ∧
      ((ShardingStrategy.rowwise 2).is_rowwise = true →
        (shards.map LinearState.out_dim).sum = exLinearC4.out_dim) ∧
      ((ShardingStrategy.rowwise 2).is_rowwise = false →
        ∀ (i : ℕ) (hi : i < shards.length),
          (shards.get ⟨i, hi⟩).out_dim = exLinearC4.out_dim) :=
  c4_shard_out_dims exLinearC4 (ShardingStrategy.rowwise 2) exDevices rfl rfl
    rfl (by intro cfg hc; cases hc) (by intro isc hc; cases hc)
    (by intro _; decide)

/-- C5: for a float8 Linear, a scalar (shape `()`) input scale is held by
every shard as the very same `Weight` entity as the original (same record,
same entity `id` — reference equality), and so is a scalar tensor-granularity
weight scale; a non-scalar weight scale is instead physically partitioned:
each shard holds the device's piece produced by `Weight.shard`, a fresh
entity whose `id` differs from the original's. -/
theorem c5_scalar_scales_shared_by_reference (l : LinearState)
    (s : ShardingStrategy) (devices : List DeviceRef) (cfg : Float8Config)
    (hs : l.weight.sharding_strategy = some s)
    (hcfg : l.float8_config = some cfg)
    (hvalid : ∀ cfg', l.float8_config = some cfg' → cfg'.validGranularity)
    (hisc : ∀ isc, l.input_scale = some isc → isc.shape = []) :
    ∃ shards, Linear.shard l devices = Except.ok shards ∧
      shards.length = devices.length ∧
      (∀ isc, l.input_scale = some isc →
        ∀ (i : ℕ) (hi : i < shards.length),
          (shards.get ⟨i, hi⟩).input_scale = some isc) ∧
      (∀ ws, l.weight_scale = some ws → ws.shape = [] →
        ∀ (i : ℕ) (hi : i < shards.length),
          (shards.get ⟨i, hi⟩).weight_scale = some ws) ∧
      (∀ ws, l.weight_scale = some ws → ws.shape ≠ [] →
        ∀ (i : ℕ) (hi : i < shards.length),
          (shards.get ⟨i, hi⟩).weight_scale =
            some ((ws.shard devices).getD i default) ∧
          ((ws.shard devices).getD i default).id ≠ ws.id) := by
  have hred := linear_shard_eq_mapM l s devices hs
  have hpoint : ∀ idx ∈ List.range devices.length,
      ∃ sh,
        Linear.shardOne l s (shardedOutDim s (l.weight.shape.getD 0 0))
          (match l.bias with
            | some bb => bb.shard devices
            | none => [])
          (match l.float8_config, l.weight_scale with
            | some _, some ws =>
              if 0 < ws.shape.length then ws.shard devices else []
            | _, _ => [])
          devices (l.weight.shard devices) idx = Except.ok sh ∧
        ((∀ isc, l.input_scale = some isc → sh.input_scale = some isc) ∧
          (∀ ws, l.weight_scale = some ws →
            sh.weight_scale =
              some (if ws.shape.length = 0 then ws
                else
                  ((match l.float8_config, l.weight_scale with
                    | some _, some ws2 =>
                      if 0 < ws2.shape.length then ws2.shard devices else []
                    | _, _ => []).getD idx default)))) := by
    intro idx _
    refine ⟨_, shardOne_eq l s _ _ _ devices _ idx hvalid hisc, ?_, ?_⟩
    · intro isc hin
      simp [hcfg, hin]
    · intro ws hw
      simp [hcfg, hw]
  obtain ⟨ys, hys, hlen, hP⟩ := mapMExcept_ok_of_forall _ hpoint
  have hget : ∀ (i : ℕ) (hi : i < ys.length),
      (∀ isc, l.input_scale = some isc → (ys.get ⟨i, hi⟩).input_scale = some isc) ∧
      (∀ ws, l.weight_scale = some ws →
        (ys.get ⟨i, hi⟩).weight_scale =
          some (if ws.shape.length = 0 then ws
            else
              ((match l.float8_config, l.weight_scale with
                | some _, some ws2 =>
                  if 0 < ws2.shape.length then ws2.shard devices else []
                | _, _ => []).getD i default))) := by
    intro i hi
    have hx : i < (List.range devices.length).length := hlen ▸ hi
    have hgr : (List.range devices.length).get ⟨i, hx⟩ = i := by
      simp [List.get_eq_getElem, List.getElem_range]
    have := hP i hi hx
    rwa [hgr] at this
  refine ⟨ys, hred.trans hys, hlen.trans (List.length_range _), ?_, ?_, ?_⟩
  · intro isc hin i hi
    exact (hget i hi).1 isc hin
  · intro ws hw hsc i hi
    have := (hget i hi).2 ws hw
    rw [this]
    simp [hsc]
  · intro ws hw hne i hi
    have hpos : 0 < ws.shape.length := List.length_pos.mpr hne
    have hlz : ¬ ws.shape.length = 0 := Nat.pos_iff_ne_zero.mp hpos
    have := (hget i hi).2 ws hw
    rw [this]
    constructor
    · simp [hcfg, hw, hlz, hpos]
    · have hidev : i < devices.length := by
        rw [← hlen.trans (List.length_range _)]
        exact hi
      rw [weight_shard_getD ws devices i hidev]
      simp
      omega

/-- C5 witness: a float8 Linear with scalar input scale and non-scalar
(shape `[4, 1]`) weight scale, sharded rowwise over two devices. -/
theorem c5_witness :
    ∃ shards, Linear.shard exLinearC5 exDevices = Except.ok shards ∧
      shards.length = exDevices.length ∧
      (∀ isc, exLinearC5.input_scale = some isc →
        ∀ (i : ℕ) (hi : i < shards.length),
          (shards.get ⟨i, hi⟩).input_scale = some isc) ∧
      (∀ ws, exLinearC5.weight_scale = some ws → ws.shape = [] →
        ∀ (i : ℕ) (hi : i < shards.length),
          (shards.get ⟨i, hi⟩).weight_scale = some ws) ∧
      (∀ ws, exLinearC5.weight_scale = some ws → ws.shape ≠ [] →
        ∀ (i : ℕ) (hi : i < shards.length),
          (shards.get ⟨i, hi⟩).weight_scale =
            some ((ws.shard exDevices).getD i default) ∧
          ((ws.shard exDevices).getD i default).id ≠ ws.id) :=
  c5_scalar_scales_shared_by_reference exLinearC5 (ShardingStrategy.rowwise 2)
    exDevices exValidConfig rfl rfl
    (by intro cfg' hc; injection hc with hc; rw [← hc]; exact ⟨Or.inl rfl, Or.inl rfl⟩)
    (by intro isc hc; injection hc with hc; rw [← hc]; rfl)

/-- C10: `DistributedGemmConfig.generate()` yields
`enable_matmul_allreduce = True` when `LLAMA_ENABLE_DIST_GEMM_KERNELS` is
unset and for every non-empty string value (including "0" and "false",
since Python `bool(s)` is string non-emptiness); only the empty string
yields `False`. -/
theorem c10_dist_gemm_generate_env (env : Option String) :
    ∃ c, DistributedGemmConfig.generate env = some c ∧
      (c.enable_matmul_allreduce = false ↔ env = some "") := by
  cases env with
  | none =>
    exact ⟨{ enable_matmul_allreduce := true }, rfl, by simp⟩
  | some s =>
    refine ⟨{ enable_matmul_allreduce := decide (s ≠ "") }, rfl, ?_⟩
    by_cases hs : s = "" <;> simp [hs]

/-- C9: constructing `ColumnParallelLinear` with a non-null `tied_weight`
raises the float8/bias-incompatibility error whenever the `has_bias` or the
`float8_config` keyword argument is passed at all — including the explicit
no-bias request `has_bias=False` — because the guard tests
`kwargs.get(...) is not None`, i.e. presence rather than truth. -/
theorem c9_tied_weight_guard_fires_on_presence (in_dim out_dim : ℕ)
    (dtype : DType) (devices : List DeviceRef) (w : Weight)
    (has_bias_arg : Option Bool) (float8_config_arg : Option Float8Config)
    (baseId : ℕ) (hdev : devices.length ≠ 0)
    (hpres : has_bias_arg.isSome = true ∨ float8_config_arg.isSome = true) :
    columnParallelInit in_dim out_dim dtype devices (some w) has_bias_arg
        float8_config_arg baseId =
      Except.error
        "float8 and bias are both unsupported by ColumnParallelLinear currently" := by
  rcases hpres with h | h <;> simp [columnParallelInit, hdev, h]

/-- C9 witness: with one device and a tied weight, both an explicit
`has_bias=False` alone and a `float8_config` alone make construction fail
with the incompatibility error. -/
theorem c9_witness :
    (columnParallelInit 6 4 DType.float32 [DeviceRef.GPU 0] (some exTiedWeight)
        (some false) none 0 =
      Except.error
        "float8 and bias are both unsupported by ColumnParallelLinear currently") ∧
    (columnParallelInit 6 4 DType.float32 [DeviceRef.GPU 0] (some exTiedWeight)
        none (some exValidConfig) 0 =
      Except.error
        "float8 and bias are both unsupported by ColumnParallelLinear currently") :=
  ⟨c9_tied_weight_guard_fires_on_presence 6 4 DType.float32 [DeviceRef.GPU 0]
      exTiedWeight (some false) none 0 (by decide) (Or.inl rfl),
    c9_tied_weight_guard_fires_on_presence 6 4 DType.float32 [DeviceRef.GPU 0]
      exTiedWeight none (some exValidConfig) 0 (by decide) (Or.inr rfl)⟩

/-- C8: `Linear.__init__` with `has_bias=True` fails with the device-mismatch
error whenever the allocated bias and allocated weight end up assigned to
different devices (the devices assigned by the external allocator are the
explicit `wDev`/`bDev` parameters of `linearInitCore`). -/
theorem c8_bias_device_mismatch (i o : ℕ) (dt : DType) (dev wDev bDev : DeviceRef)
    (qe : Option QuantizationEncoding) (f8 : Option Float8Config)
    (nm : Option String) (clip : Option ℚ) (baseId : ℕ) (hne : bDev ≠ wDev) :
    linearInitCore i o dt dev wDev bDev true qe f8 nm clip baseId =
      Except.error "Bias is on a different device than the weight." := by
  simp [linearInitCore, hne]

/-- C8 witness: a Linear whose weight is allocated on GPU 0 and bias on CPU
fails with the device-mismatch error. -/
theorem c8_witness :
    linearInitCore 256 128 DType.float32 (DeviceRef.GPU 0) (DeviceRef.GPU 0)
        DeviceRef.CPU true none none none none 0 =
      Except.error "Bias is on a different device than the weight." :=
  c8_bias_device_mismatch 256 128 DType.float32 (DeviceRef.GPU 0)
    (DeviceRef.GPU 0) DeviceRef.CPU none none none none 0 (by decide)

/-- C6 counterexample: constructing a `Float8Config` whose input-scale
granularity is BLOCK does not raise — the dataclass constructor stores the
fields and performs no validation, so the claim that a `Float8Config` is
validated (and raises) at its own construction is false. -/
theorem c6_counterexample :
    Float8Config.construct exBlockInputSpec exRowwiseWeightSpec [] [] none none =
      Except.ok exBlockConfig := rfl

/-- C6 (amended): granularity validation happens when a `Linear` is
constructed with the config — any input-scale granularity other than tensor
or colwise, or any weight-scale granularity other than rowwise or tensor,
makes `Linear.__init__` fail with an unsupported-granularity error. -/
theorem c6_granularity_validated_at_linear_init (i o : ℕ) (dt : DType)
    (dev : DeviceRef) (hb : Bool) (qe : Option QuantizationEncoding)
    (nm : Option String) (clip : Option ℚ) (baseId : ℕ) (cfg : Float8Config)
    (h : ¬ cfg.validGranularity) :
    ∃ e, linearInit i o dt dev hb qe (some cfg) nm clip baseId =
      Except.error e := by
  by_cases hA : cfg.input_scale.granularity = Float8ScaleGranularity.tensor ∨
      cfg.input_scale.granularity = Float8ScaleGranularity.colwise
  · have hB : ¬(cfg.weight_scale.granularity = Float8ScaleGranularity.rowwise ∨
        cfg.weight_scale.granularity = Float8ScaleGranularity.tensor) :=
      fun hB => h ⟨hA, hB⟩
    have h1 : ¬(cfg.input_scale.granularity ≠ Float8ScaleGranularity.tensor ∧
        cfg.input_scale.granularity ≠ Float8ScaleGranularity.colwise) := by
      tauto
    have hr : cfg.weight_scale.is_rowwise = false := by
      simp [Float8WeightScaleSpec.is_rowwise]
      tauto
    have ht : cfg.weight_scale.is_tensor = false := by
      simp [Float8WeightScaleSpec.is_tensor]
      tauto
    cases hb <;>
      exact ⟨"only row-wise and tensor scaling are supported currently",
        by simp [linearInit, linearInitCore, h1, hr, ht]⟩
  · have h1 : cfg.input_scale.granularity ≠ Float8ScaleGranularity.tensor ∧
        cfg.input_scale.granularity ≠ Float8ScaleGranularity.colwise := by
      tauto
    cases hb <;>
      exact ⟨"unsupported input scale granularity. Only tensor and col-wise are supported, currently",
        by simp [linearInit, linearInitCore, h1]⟩

/-- C6 witness: a `Linear` constructed with the BLOCK-granularity config
fails at construction. -/
theorem c6_witness :
    ∃ e, linearInit 6 4 DType.float32 DeviceRef.CPU false none
        (some exBlockConfig) none none 0 = Except.error e :=
  c6_granularity_validated_at_linear_init 6 4 DType.float32 DeviceRef.CPU
    false none none none 0 exBlockConfig (by
      intro hv
      rcases hv with ⟨hin, _⟩
      rcases hin with h | h <;> simp [exBlockConfig, exBlockInputSpec] at h)

/-- C2: assigning a sharding strategy to a `Linear` with a weight scale sets
the weight scale's strategy to `replicate(num_devices)` exactly when the
weight-scale granularity is tensor, or when the assigned strategy is colwise
or head-aware colwise and the weight-scale granularity is rowwise; in every
other case the weight scale receives the same strategy as the weight. -/
theorem c2_weight_scale_strategy_propagation (l : LinearState)
    (s : ShardingStrategy) (ws : Weight) (cfg : Float8Config)
    (hws : l.weight_scale = some ws) (hcfg : l.float8_config = some cfg) :
    ∃ l', Linear.setShardingStrategy l s = Except.ok l' ∧
      l'.weight.sharding_strategy = some s ∧
      l'.weight_scale = some
        { ws with
          sharding_strategy := some
            (if cfg.weight_scale.granularity = Float8ScaleGranularity.tensor ∨
                ((s.is_colwise = true ∨ s.is_head_aware_colwise = true) ∧
                  cfg.weight_scale.granularity = Float8ScaleGranularity.rowwise)
              then ShardingStrategy.replicate s.num_devices
              else s) } := by
  have hite :
      (if (cfg.weight_scale.is_tensor ||
          ((s.is_colwise || s.is_head_aware_colwise) &&
            cfg.weight_scale.is_rowwise)) = true
        then ShardingStrategy.replicate s.num_devices else s) =
      (if cfg.weight_scale.granularity = Float8ScaleGranularity.tensor ∨
          ((s.is_colwise = true ∨ s.is_head_aware_colwise = true) ∧
            cfg.weight_scale.granularity = Float8ScaleGranularity.rowwise)
        then ShardingStrategy.replicate s.num_devices else s) :=
    if_congr (shouldReplicate_cond_iff cfg s) rfl rfl
  cases hbias : l.bias with
  | none =>
    refine
      ⟨{ l with
          weight := { l.weight with sharding_strategy := some s }
          weight_scale := some
            { ws with
              sharding_strategy := some
                (if (cfg.weight_scale.is_tensor ||
                    ((s.is_colwise || s.is_head_aware_colwise) &&
                      cfg.weight_scale.is_rowwise)) = true
                  then ShardingStrategy.replicate s.num_devices else s) } },
        ?_, rfl, ?_⟩
    · simp only [Linear.setShardingStrategy, hws, hcfg, hbias]
    · rw [hite]
  | some b =>
    refine
      ⟨{ l with
          weight := { l.weight with sharding_strategy := some s }
          weight_scale := some
            { ws with
              sharding_strategy := some
                (if (cfg.weight_scale.is_tensor ||
                    ((s.is_colwise || s.is_head_aware_colwise) &&
                      cfg.weight_scale.is_rowwise)) = true
                  then ShardingStrategy.replicate s.num_devices else s) }
          bias := some
            { b with
              sharding_strategy := some
                (if s.is_rowwise then s
                 else ShardingStrategy.replicate s.num_devices) } },
        ?_, rfl, ?_⟩
    · simp only [Linear.setShardingStrategy, hws, hcfg, hbias]
    · rw [hite]

/-- C2 witness: a float8 Linear with a rowwise weight scale receives, under a
colwise strategy over 2 devices, a replicated weight-scale strategy. -/
theorem c2_witness :
    ∃ l', Linear.setShardingStrategy exLinearC5 (ShardingStrategy.colwise 2) =
        Except.ok l' ∧
      l'.weight.sharding_strategy = some (ShardingStrategy.colwise 2) ∧
      l'.weight_scale = some
        { exWeightScaleRowwise with
          sharding_strategy := some
            (if exValidConfig.weight_scale.granularity =
                  Float8ScaleGranularity.tensor ∨
                (((ShardingStrategy.colwise 2).is_colwise = true ∨
                  (ShardingStrategy.colwise 2).is_head_aware_colwise = true) ∧
                  exValidConfig.weight_scale.granularity =
                    Float8ScaleGranularity.rowwise)
              then ShardingStrategy.replicate
                (ShardingStrategy.colwise 2).num_devices
              else ShardingStrategy.colwise 2) } :=
  c2_weight_scale_strategy_propagation exLinearC5 (ShardingStrategy.colwise 2)
    exWeightScaleRowwise exValidConfig rfl rfl

/-- C7: the fused swish-glu branch is unreachable: its guard condition — in
both `MLP.__call__` and the deprecated `MLPV1.__call__` — is constantly
false (it ends in the literal `and False` of the GEX-1476 workaround), so
the result never depends on the fused kernel and always comes from the
generic computation. -/
theorem c7_swish_glu_path_unreachable :
    (∀ (gbn ubn : Bool) (r : ℕ) (d : Option DeviceRef),
      swishGluCond gbn ubn r d = false) ∧
    (∀ (h f n : ℕ)
      (fk : Matrix (Fin n) (Fin h) ℚ → Matrix (Fin f) (Fin h) ℚ →
        Matrix (Fin f) (Fin h) ℚ → Matrix (Fin n) (Fin f) ℚ)
      (m : MLPPlain h f) (xr : ℕ) (xd : Option DeviceRef)
      (x : Matrix (Fin n) (Fin h) ℚ),
      mlpCall fk m xr xd x = mlpPlainBranch m x) ∧
    (∀ (h f n : ℕ)
      (fk : Matrix (Fin n) (Fin h) ℚ → Matrix (Fin f) (Fin h) ℚ →
        Matrix (Fin f) (Fin h) ℚ → Matrix (Fin n) (Fin f) ℚ)
      (silu : ℚ → ℚ) (m : MLPV1 h f) (xr : ℕ) (xd : Option DeviceRef)
      (x : Matrix (Fin n) (Fin h) ℚ),
      mlpV1Call fk silu m xr xd x = mlpV1Generic silu m x) := by
  refine ⟨?_, ?_, ?_⟩
  · intro gbn ubn r d
    simp [swishGluCond]
  · intro h f n fk m xr xd x
    simp [mlpCall, swishGluCond]
  · intro h f n fk silu m xr xd x
    simp [mlpV1Call, swishGluCond]

theorem splitGateHalf_mul {n h f : ℕ} (x : Matrix (Fin n) (Fin h) ℚ)
    (G U : Matrix (Fin f) (Fin h) ℚ) :
    splitGateHalf (x * (concatRows G U).transpose) = x * G.transpose := by
  funext i j
  simp [splitGateHalf, concatRows, Matrix.mul_apply, Matrix.transpose_apply]

theorem splitUpHalf_mul {n h f : ℕ} (x : Matrix (Fin n) (Fin h) ℚ)
    (G U : Matrix (Fin f) (Fin h) ℚ) :
    splitUpHalf (x * (concatRows G U).transpose) = x * U.transpose := by
  funext i j
  simp [splitUpHalf, concatRows, Matrix.mul_apply, Matrix.transpose_apply]

theorem splitGateHalf_addBias {n f : ℕ} (M : Matrix (Fin n) (Fin f ⊕ Fin f) ℚ)
    (gb ub : Fin f → ℚ) :
    splitGateHalf (addBias M (concatBias gb ub)) = addBias (splitGateHalf M) gb :=
  rfl

theorem splitUpHalf_addBias {n f : ℕ} (M : Matrix (Fin n) (Fin f ⊕ Fin f) ℚ)
    (gb ub : Fin f → ℚ) :
    splitUpHalf (addBias M (concatBias gb ub)) = addBias (splitUpHalf M) ub :=
  rfl

/-- C1: on a plain-precision MLP (no quantization encoding, no float8
config), when the distributed-GEMM overlap does not skip the down projection
and the gate/up biases are both present or both absent (as the MLP
constructor guarantees), the fused path — one matmul over the concatenated
gate/up weights, split into halves, activation times up half, then the down
projection — computes exactly the unfused
`down(act(gate(x)) * up(x))`.  Arithmetic is modelled exactly over `ℚ`, so
"within floating-point tolerance" is exact equality. -/
theorem c1_fused_path_matches_unfused {h f n : ℕ}
    (fk : Matrix (Fin n) (Fin h) ℚ → Matrix (Fin f) (Fin h) ℚ →
      Matrix (Fin f) (Fin h) ℚ → Matrix (Fin n) (Fin f) ℚ)
    (m : MLPPlain h f) (xr : ℕ) (xd : Option DeviceRef)
    (x : Matrix (Fin n) (Fin h) ℚ)
    (hbias : m.gateBias.isSome = m.upBias.isSome)
    (hskip : distGemmSkip m.distGemm = false) :
    mlpCall fk m xr xd x =
      MLPOut.full (linearCallPlain m.downW m.downBias
        (matHadamard (matMap m.act (linearCallPlain m.gateW m.gateBias x))
          (linearCallPlain m.upW m.upBias x))) := by
  have hc : mlpCall fk m xr xd x = mlpPlainBranch m x := by
    simp [mlpCall, swishGluCond]
  rw [hc]
  cases hg : m.gateBias with
  | none =>
    cases hu : m.upBias with
    | some ub => rw [hg, hu] at hbias; simp at hbias
    | none =>
      simp only [mlpPlainBranch, hg, hu, hskip, Bool.false_eq_true, if_false]
      rw [splitGateHalf_mul, splitUpHalf_mul]
      simp [linearCallPlain]
  | some gb =>
    cases hu : m.upBias with
    | none => rw [hg, hu] at hbias; simp at hbias
    | some ub =>
      simp only [mlpPlainBranch, hg, hu, hskip, Bool.false_eq_true, if_false]
      rw [splitGateHalf_addBias, splitUpHalf_addBias, splitGateHalf_mul,
        splitUpHalf_mul]
      simp [linearCallPlain]

/-- C1 witness: a concrete 1×1 plain MLP with no biases and no distributed
GEMM config, evaluated at a concrete input. -/
theorem c1_witness :
    exMLP.gateBias.isSome = exMLP.upBias.isSome ∧
    distGemmSkip exMLP.distGemm = false ∧
    mlpCall exFk exMLP 2 (some (DeviceRef.GPU 0)) exX =
      MLPOut.full (linearCallPlain exMLP.downW exMLP.downBias
        (matHadamard (matMap exMLP.act (linearCallPlain exMLP.gateW exMLP.gateBias exX))
          (linearCallPlain exMLP.upW exMLP.upBias exX))) :=
  ⟨rfl, rfl,
    c1_fused_path_matches_unfused exFk exMLP 2 (some (DeviceRef.GPU 0)) exX rfl rfl⟩

end MaxNN
